import Mathlib

set_option maxHeartbeats 1000000

/-!
Verification of the fasthooks background-task core: the task descriptor,
the TaskResult state machine, the session-scoped result store with its
ImmediateBackend operation set, and the session-bound handler facades.

The Python modules implementing this core (`fasthooks/tasks/base.py`,
`fasthooks/tasks/backend.py`, `fasthooks/tasks/testing.py`,
`fasthooks/tasks/depends.py`, `fasthooks/app.py`) are not part of the
source tree available here; every definition below embedding them is
modelled from the specification (spec.md §3–§4.6, §7–§9) and is marked
`Modelled from the spec:` in its doc comment.

Machine values are embedded shallowly: Python's dynamic value universe is
a type parameter `V` (instantiated with `PyVal` for concrete runs), raised
exceptions are a type parameter `E` (instantiated with `PyErr`), callables
are Lean functions returning `Except E V`, wall-clock time is an explicit
`now : Int` argument threaded through every operation, and the per-backend
session store is an association list of TaskResult records keyed by
`(session_id, key)`.
-/

namespace FastHooks

/-- Modelled from the spec: the TaskResult status state machine of §4.2,
`PENDING → RUNNING → {COMPLETED, FAILED}` with CANCELLED reachable from
PENDING or RUNNING. -/
inductive TaskStatus
  | pending
  | running
  | completed
  | failed
  | cancelled
  deriving DecidableEq

/-- Modelled from the spec: §3 Task — an immutable descriptor binding a
callable to execution metadata (name, priority, ttl, optional result
transform). `missing: fasthooks/tasks/base.py`. The callable takes the
positional-argument tuple (type `ι`) and the keyword-argument mapping
(type `κ`) and either returns a value or raises, embedded as `Except`. -/
structure Task (ι κ V E : Type) where
  name : String
  callable : ι → κ → Except E V
  priority : Int := 0
  ttl : Nat := 300
  transform : Option (V → V) := none

variable {ι κ V E : Type}

/-- Modelled from the spec: §3 — `transform` (optional function) is applied
to the raw return value before storage; absent, the raw value stands. -/
def Task.applyTransform (t : Task ι κ V E) (v : V) : V :=
  match t.transform with
  | some f => f v
  | none => v

/-- Modelled from the spec: §4.1 — direct invocation executes the wrapped
callable synchronously, applies `transform` to a successful result, and
lets exceptions propagate unchanged; it bypasses any Backend. -/
def Task.call (t : Task ι κ V E) (args : ι) (kwargs : κ) : Except E V :=
  match t.callable args kwargs with
  | .ok v => .ok (t.applyTransform v)
  | .error e => .error e

/-- Modelled from the spec: §3 TaskResult — a mutable record tracking one
execution's lifecycle and payload, keyed by (session, key); created
PENDING. `missing: fasthooks/tasks/base.py`. -/
structure TaskResult (V E : Type) where
  id : String
  session_id : String
  key : String
  status : TaskStatus := .pending
  value : Option V := none
  error : Option E := none
  created_at : Int := 0
  started_at : Option Int := none
  finished_at : Option Int := none
  ttl : Nat := 300
  deriving DecidableEq

/-- COMPLETED, FAILED and CANCELLED are the terminal statuses (§4.2). -/
def TaskStatus.isTerminal : TaskStatus → Bool
  | .completed => true
  | .failed => true
  | .cancelled => true
  | _ => false

/-- Modelled from the spec: §4.2 — `is_finished` ⇔ status ∈
{COMPLETED, FAILED, CANCELLED}. -/
def TaskResult.is_finished (r : TaskResult V E) : Bool :=
  r.status.isTerminal

/-- Modelled from the spec: §4.2 — `is_expired` ⇔ `now() − created_at > ttl`,
evaluated on every access against the clock value passed in. -/
def TaskResult.is_expired (r : TaskResult V E) (now : Int) : Bool :=
  now - r.created_at > (r.ttl : Int)

/-- Modelled from the spec: §4.2 — `set_running()` is valid only from
PENDING and records `started_at`; from any other state it is a no-op
(misuse, §7(c)). -/
def TaskResult.set_running (r : TaskResult V E) (now : Int) : TaskResult V E :=
  if r.status = .pending then
    { r with status := .running, started_at := some now }
  else r

/-- Modelled from the spec: §4.2 — `set_completed(value)` is valid from
RUNNING; records `finished_at`, stores `value`; a no-op elsewhere. -/
def TaskResult.set_completed (r : TaskResult V E) (v : V) (now : Int) : TaskResult V E :=
  if r.status = .running then
    { r with status := .completed, value := some v, finished_at := some now }
  else r

/-- Modelled from the spec: §4.2 — `set_failed(error)` is valid from RUNNING
or PENDING (the callable may raise before a running transition was
recorded); records `finished_at`, stores `error`; a no-op elsewhere. -/
def TaskResult.set_failed (r : TaskResult V E) (e : E) (now : Int) : TaskResult V E :=
  if r.status = .running ∨ r.status = .pending then
    { r with status := .failed, error := some e, finished_at := some now }
  else r

/-- Modelled from the spec: §4.2 — `set_cancelled()` is valid from PENDING
or RUNNING; records `finished_at`; a no-op elsewhere. -/
def TaskResult.set_cancelled (r : TaskResult V E) (now : Int) : TaskResult V E :=
  if r.status = .pending ∨ r.status = .running then
    { r with status := .cancelled, finished_at := some now }
  else r

/-- Modelled from the spec: §3 — a Backend owns a mapping from `session_id`
to a mapping from `key` to TaskResult; embedded as an association list of
TaskResult records (each record carries its own session and key), kept
duplicate-free per (session, key) by the operations. -/
abbrev Store (V E : Type) := List (TaskResult V E)

/-- Lookup of the entry stored under `(sid, k)`, if any. -/
def lookupEntry (store : Store V E) (sid k : String) : Option (TaskResult V E) :=
  store.find? (fun r => r.session_id == sid && r.key == k)

/-- Removal of every entry stored under `(sid, k)`. -/
def removeEntry (store : Store V E) (sid k : String) : Store V E :=
  store.filter (fun r => !(r.session_id == sid && r.key == k))

/-- Modelled from the spec: §4.3/§4.4 — ImmediateBackend `enqueue` creates a
PENDING TaskResult under `(session_id, key)`, overwriting any prior entry
for that key, and executes the callable synchronously inside `enqueue`,
transitioning PENDING→RUNNING→COMPLETED/FAILED before returning; a raised
exception is captured into the result, never thrown out of `enqueue` (§7a).
The fresh result id and the clock reading are passed in explicitly.
`missing: fasthooks/tasks/testing.py`. -/
def enqueue (t : Task ι κ V E) (args : ι) (kwargs : κ) (sid k id : String)
    (now : Int) (store : Store V E) : TaskResult V E × Store V E :=
  let r0 : TaskResult V E :=
    { id := id, session_id := sid, key := k, created_at := now, ttl := t.ttl }
  let r1 := r0.set_running now
  let r2 :=
    match t.callable args kwargs with
    | .ok v => r1.set_completed (t.applyTransform v) now
    | .error e => r1.set_failed e now
  (r2, r2 :: removeEntry store sid k)

/-- Modelled from the spec: §4.3 — `get` is a non-destructive lookup
returning absent if missing or expired; an expired entry is evicted as a
side effect of the check. -/
def get (sid k : String) (now : Int) (store : Store V E) :
    Option (TaskResult V E) × Store V E :=
  match lookupEntry store sid k with
  | none => (none, store)
  | some r =>
    if r.is_expired now then (none, removeEntry store sid k)
    else (some r, store)

/-- Modelled from the spec: §4.3 and §8 — `pop` returns the stored value and
removes the entry only if status == COMPLETED; an expired or CANCELLED
entry is evicted and absence returned; a PENDING/RUNNING entry is left and
absence returned; a FAILED entry is left in place and absence returned, so
that the failure stays reachable via `pop_errors` (§8: pop on a failed key
before `pop_errors` runs returns absence without removing it). -/
def pop (sid k : String) (now : Int) (store : Store V E) :
    Option V × Store V E :=
  match lookupEntry store sid k with
  | none => (none, store)
  | some r =>
    if r.is_expired now then (none, removeEntry store sid k)
    else
      match r.status with
      | .completed => (r.value, removeEntry store sid k)
      | .cancelled => (none, removeEntry store sid k)
      | _ => (none, store)

/-- The entries `pop_all` extracts: live COMPLETED entries of the session. -/
def popAllPred (sid : String) (now : Int) (r : TaskResult V E) : Bool :=
  r.session_id == sid && r.status == .completed && !(r.is_expired now)

/-- Modelled from the spec: §4.3 — `pop_all` pops every COMPLETED entry for
the session, in store order, leaving all other entries untouched. -/
def pop_all (sid : String) (now : Int) (store : Store V E) :
    List V × Store V E :=
  ((store.filter (popAllPred sid now)).filterMap (fun r => r.value),
   store.filter (fun r => !popAllPred sid now r))

/-- The entries `pop_errors` extracts: live FAILED entries of the session. -/
def popErrPred (sid : String) (now : Int) (r : TaskResult V E) : Bool :=
  r.session_id == sid && r.status == .failed && !(r.is_expired now)

/-- Modelled from the spec: §4.3 — `pop_errors` pops every FAILED entry for
the session, each as the pair of its key and the stored exception. -/
def pop_errors (sid : String) (now : Int) (store : Store V E) :
    List (String × E) × Store V E :=
  ((store.filter (popErrPred sid now)).filterMap
      (fun r => r.error.map (fun e => (r.key, e))),
   store.filter (fun r => !popErrPred sid now r))

/-- Modelled from the spec: §4.3 — `has` is true if a COMPLETED (live) entry
exists for the key, or, with no key given, for the session at all. -/
def has (sid : String) (k : Option String) (now : Int) (store : Store V E) : Bool :=
  match k with
  | some k =>
    match lookupEntry store sid k with
    | some r => r.status == .completed && !(r.is_expired now)
    | none => false
  | none => store.any (fun r => popAllPred sid now r)

/-- Modelled from the spec: §4.3 — `cancel` attempts to transition a
non-terminal entry to CANCELLED and reports whether it succeeded (false if
missing or already terminal). -/
def cancel (sid k : String) (now : Int) (store : Store V E) :
    Bool × Store V E :=
  match lookupEntry store sid k with
  | none => (false, store)
  | some r =>
    if r.is_finished then (false, store)
    else (true, r.set_cancelled now :: removeEntry store sid k)

/-- Outcome of a `wait`-family operation: the awaited value, the re-raised
stored task error, or the distinct timeout failure (§7b). -/
inductive WaitOutcome (α E : Type)
  | ok (v : α)
  | failed (e : E)
  | timeout
  deriving DecidableEq

/-- Modelled from the spec: §4.3/§4.4 — `wait` returns the value once the
entry is COMPLETED, re-raises the stored error if FAILED, and otherwise
fails with a timeout; on the ImmediateBackend the target is already
terminal, so the call returns immediately and the timeout budget is
never consumed. -/
def wait (sid k : String) (timeout : Int) (now : Int) (store : Store V E) :
    WaitOutcome V E :=
  match (get sid k now store).fst with
  | some r =>
    match r.status with
    | .completed =>
      match r.value with
      | some v => .ok v
      | none => .timeout
    | .failed =>
      match r.error with
      | some e => .failed e
      | none => .timeout
    | _ => .timeout
  | none => .timeout

/-- Modelled from the spec: §4.3 — `wait_all` waits for every key to reach
COMPLETED within the shared budget, failing on the first FAILED or on
timeout; immediate since every entry is already terminal here. -/
def wait_all (sid : String) (keys : List String) (timeout : Int) (now : Int)
    (store : Store V E) : WaitOutcome (List (String × V)) E :=
  match keys with
  | [] => .ok []
  | k :: ks =>
    match wait sid k timeout now store with
    | .ok v =>
      match wait_all sid ks timeout now store with
      | .ok m => .ok ((k, v) :: m)
      | .failed e => .failed e
      | .timeout => .timeout
    | .failed e => .failed e
    | .timeout => .timeout

/-- Modelled from the spec: §4.3 — `wait_any` returns as soon as any one key
completes, as the pair (key, value), scanning the given keys in order; a
key that failed does not itself end the wait unless it is the only key; if
no key completes the wait fails with a timeout. -/
def wait_any (sid : String) (keys : List String) (timeout : Int) (now : Int)
    (store : Store V E) : WaitOutcome (String × V) E :=
  match keys.findSome? (fun k =>
      match (get sid k now store).fst with
      | some r =>
        if r.status = .completed then r.value.map (fun v => (k, v)) else none
      | none => none) with
  | some kv => .ok kv
  | none =>
    match keys with
    | [k] =>
      match (get sid k now store).fst with
      | some r =>
        if r.status = .failed then
          match r.error with
          | some e => .failed e
          | none => .timeout
        else .timeout
      | none => .timeout
    | _ => .timeout

/-- Modelled from the spec: §4.6 — `BackgroundTasks`, the per-invocation
submission facade, holds a non-owning reference to one Backend and one
`session_id`; in this state-passing embedding only the bound session
identifier is facade state, the backend's store being threaded explicitly.
`missing: fasthooks/tasks/depends.py`. -/
structure BackgroundTasks where
  session_id : String

/-- Modelled from the spec: §4.6 — `add(task, *args, key, **kwargs)` is
sugar for `backend.enqueue(task, args, kwargs, session_id, key)`,
discarding the returned handle. -/
def BackgroundTasks.add (bt : BackgroundTasks) (t : Task ι κ V E)
    (args : ι) (kwargs : κ) (k id : String) (now : Int)
    (store : Store V E) : Store V E :=
  (enqueue t args kwargs bt.session_id k id now store).snd

/-- Modelled from the spec: §4.6 — `PendingResults`, the per-invocation
retrieval facade, bound to one Backend and one `session_id`.
`missing: fasthooks/tasks/depends.py`. -/
structure PendingResults where
  session_id : String

/-- Modelled from the spec: §4.6 — delegates to the Backend's `pop` with the
bound `session_id` pre-filled. -/
def PendingResults.pop (p : PendingResults) (k : String) (now : Int)
    (store : Store V E) : Option V × Store V E :=
  FastHooks.pop p.session_id k now store

/-- Modelled from the spec: §4.6 — delegates to the Backend's `pop_all`. -/
def PendingResults.pop_all (p : PendingResults) (now : Int)
    (store : Store V E) : List V × Store V E :=
  FastHooks.pop_all p.session_id now store

/-- Modelled from the spec: §4.6 — delegates to the Backend's `pop_errors`. -/
def PendingResults.pop_errors (p : PendingResults) (now : Int)
    (store : Store V E) : List (String × E) × Store V E :=
  FastHooks.pop_errors p.session_id now store

/-- Modelled from the spec: §4.6 — delegates to the Backend's `has`. -/
def PendingResults.has (p : PendingResults) (k : Option String) (now : Int)
    (store : Store V E) : Bool :=
  FastHooks.has p.session_id k now store

/-- Modelled from the spec: §4.6 — delegates to the Backend's `wait`. -/
def PendingResults.wait (p : PendingResults) (k : String) (timeout now : Int)
    (store : Store V E) : WaitOutcome V E :=
  FastHooks.wait p.session_id k timeout now store

/-- Modelled from the spec: §4.6 — delegates to the Backend's `wait_all`. -/
def PendingResults.wait_all (p : PendingResults) (keys : List String)
    (timeout now : Int) (store : Store V E) :
    WaitOutcome (List (String × V)) E :=
  FastHooks.wait_all p.session_id keys timeout now store

/-- Modelled from the spec: §4.6 — delegates to the Backend's `wait_any`. -/
def PendingResults.wait_any (p : PendingResults) (keys : List String)
    (timeout now : Int) (store : Store V E) :
    WaitOutcome (String × V) E :=
  FastHooks.wait_any p.session_id keys timeout now store

/-- The Python dynamic value universe, as far as the tests and the spec
exercise it: `None`, booleans, integers and strings. -/
inductive PyVal
  | none
  | bool (b : Bool)
  | int (n : Int)
  | str (s : String)
  deriving DecidableEq

/-- A raised Python exception, as stored on a failed TaskResult: its type
name and message. -/
structure PyErr where
  typ : String
  msg : String
  deriving DecidableEq

/-- Modelled from the spec: §7(d) — absence is a non-error "no value" result:
at the Python surface `pop` answers with the value `None` both for a
missing/expired key and for a stored value that is itself `None`, never
with an exception. This wraps `pop` the way the Python method returns
(`result.value` or `None`), collapsing `Option.none` to `PyVal.none`. -/
def popPy (sid k : String) (now : Int) (store : Store PyVal E) :
    PyVal × Store PyVal E :=
  ((pop sid k now store).fst.getD PyVal.none, (pop sid k now store).snd)

/-- One enqueue request: a task with its positional and keyword arguments,
target key and fresh result id. Statement apparatus for quantifying over
an arbitrary batch of enqueues. -/
structure Job (ι κ V E : Type) where
  task : Task ι κ V E
  args : ι
  kwargs : κ
  key : String
  id : String

/-- Runs a batch of enqueues under one session, left to right. -/
def enqueueMany (jobs : List (Job ι κ V E)) (sid : String) (now : Int)
    (store : Store V E) : Store V E :=
  jobs.foldl (fun st j => (enqueue j.task j.args j.kwargs sid j.key j.id now st).snd) store

/-- The sub-store of entries belonging to one session. -/
def sessionEntries (sid : String) (store : Store V E) : Store V E :=
  store.filter (fun r => r.session_id == sid)

/-- A backend instance as seen through Python object identity: its concrete
class and an identity tag distinguishing distinct instances. -/
inductive BackendKind
  | inMemory
  | immediate
  deriving DecidableEq

/-- A reference to one backend instance. -/
structure BackendRef where
  kind : BackendKind
  tag : Nat
  deriving DecidableEq

/-- Constructing a fresh default backend: `InMemoryBackend()` with a fresh
identity tag. -/
def mkInMemoryBackend (tag : Nat) : BackendRef :=
  ⟨.inMemory, tag⟩

/-- Modelled from the spec: §9 — the surrounding application object holds the
one long-lived Backend; when none is supplied at construction, a default
backend instance is implicitly created on first use of the attribute and
kept. `missing: fasthooks/app.py` (the HookApp variant carrying
`task_backend`; only its tests are in the tree). The stored field is the
constructor argument, `none` when not supplied. -/
structure HookApp where
  _task_backend : Option BackendRef

/-- Modelled from the spec: §9 — reading `app.task_backend`: if no backend
is stored yet, a default `InMemoryBackend` is created (with the fresh
identity tag passed in), stored, and returned; otherwise the stored
instance is returned unchanged. Returns the attribute value with the
updated application state. -/
def HookApp.task_backend (app : HookApp) (freshTag : Nat) :
    BackendRef × HookApp :=
  match app._task_backend with
  | some b => (b, app)
  | none =>
    let b := mkInMemoryBackend freshTag
    (b, ⟨some b⟩)

/-- A concrete doubling task over `PyVal`, mirroring the test suite's
`double(x) = x * 2`; non-integer arguments raise a TypeError. -/
def doubleTask : Task PyVal PyVal PyVal PyErr :=
  { name := "double",
    callable := fun x _ =>
      match x with
      | .int n => .ok (.int (n * 2))
      | _ => .error ⟨"TypeError", "unsupported operand"⟩ }

/-- A concrete always-raising task, mirroring the test suite's `fail()`. -/
def failTask : Task PyVal PyVal PyVal PyErr :=
  { name := "fail",
    callable := fun _ _ => .error ⟨"ValueError", "Intentional failure"⟩ }

/-- A concrete task returning Python `None`. -/
def noneTask : Task PyVal PyVal PyVal PyErr :=
  { name := "give_nothing",
    callable := fun _ _ => .ok .none }

/-! ### Helper lemmas on lists and on the store -/

/-- Lemma: `find?` looks through a `filter` unchanged when the sought predicate
entails the filter's. -/
theorem find?_filter_of_imp {α : Type} (l : List α) (p q : α → Bool)
    (h : ∀ a, p a = true → q a = true) : (l.filter q).find? p = l.find? p := by
  rw [List.find?_filter]
  congr 1
  funext a
  by_cases hp : p a = true
  · simp [hp, h a hp]
  · simp [hp]

/-- Lemma: `filter` looks through a coarser `filter` unchanged. -/
theorem filter_filter_of_imp {α : Type} (l : List α) (p q : α → Bool)
    (h : ∀ a, p a = true → q a = true) : (l.filter q).filter p = l.filter p := by
  rw [List.filter_filter]
  apply List.filter_congr
  intro a _
  by_cases hp : p a = true
  · simp [hp, h a hp]
  · simp [hp]

/-- Lemma: `any` looks through a coarser `filter` unchanged. -/
theorem any_filter_of_imp {α : Type} (l : List α) (p q : α → Bool)
    (h : ∀ a, p a = true → q a = true) : (l.filter q).any p = l.any p := by
  rw [List.any_filter]
  congr 1
  funext a
  by_cases hp : p a = true
  · simp [hp, h a hp]
  · simp [hp]

/-- The store predicate matching `(sid, k)` in propositional form. -/
theorem entryMatch_iff {r : TaskResult V E} {sid k : String} :
    (r.session_id == sid && r.key == k) = true ↔
      (r.session_id = sid ∧ r.key = k) := by
  simp

/-- A cons cell for a different (session, key) is invisible to lookup. -/
theorem lookupEntry_cons_of_ne (r : TaskResult V E) (store : Store V E)
    (sid k : String) (h : ¬(r.session_id = sid ∧ r.key = k)) :
    lookupEntry (r :: store) sid k = lookupEntry store sid k := by
  unfold lookupEntry
  rw [List.find?_cons]
  have hfalse : (r.session_id == sid && r.key == k) = false := by
    rw [Bool.eq_false_iff]
    intro hc
    exact h (entryMatch_iff.mp hc)
  rw [hfalse]

/-- After removal, lookup of the removed (session, key) finds nothing. -/
theorem lookupEntry_removeEntry (store : Store V E) (sid k : String) :
    lookupEntry (removeEntry store sid k) sid k = none := by
  unfold lookupEntry removeEntry
  rw [List.find?_eq_none]
  intro x hx hc
  rw [List.mem_filter] at hx
  rw [hc] at hx
  simp at hx

/-- Removal of one (session, key) is invisible to lookup of another. -/
theorem lookupEntry_removeEntry_ne (store : Store V E) (sid k sid' k' : String)
    (h : ¬(sid' = sid ∧ k' = k)) :
    lookupEntry (removeEntry store sid k) sid' k' = lookupEntry store sid' k' := by
  unfold lookupEntry removeEntry
  apply find?_filter_of_imp
  intro a ha
  obtain ⟨h1, h2⟩ := entryMatch_iff.mp ha
  simp only [Bool.not_eq_true', Bool.and_eq_false_iff]
  by_cases hs : a.session_id == sid
  · by_cases hk : a.key == k
    · exact absurd ⟨h1 ▸ (by simpa using hs), h2 ▸ (by simpa using hk)⟩ h
    · exact Or.inr (by simpa using hk)
  · exact Or.inl (by simpa using hs)

/-- Lookup only inspects the session's own entries. -/
theorem lookupEntry_sessionEntries (store : Store V E) (sid k : String) :
    lookupEntry (sessionEntries sid store) sid k = lookupEntry store sid k := by
  unfold lookupEntry sessionEntries
  apply find?_filter_of_imp
  intro a ha
  exact (Bool.and_eq_true _ _ |>.mp ha).1

/-- The result record produced by `enqueue` when the callable returns. -/
theorem enqueue_fst_ok (t : Task ι κ V E) (args : ι) (kwargs : κ)
    (sid k id : String) (now : Int) (store : Store V E) (v : V)
    (h : t.callable args kwargs = .ok v) :
    (enqueue t args kwargs sid k id now store).fst =
      { id := id, session_id := sid, key := k, status := .completed,
        value := some (t.applyTransform v), error := none, created_at := now,
        started_at := some now, finished_at := some now, ttl := t.ttl } := by
  unfold enqueue
  simp only [h]
  rfl

/-- The result record produced by `enqueue` when the callable raises. -/
theorem enqueue_fst_error (t : Task ι κ V E) (args : ι) (kwargs : κ)
    (sid k id : String) (now : Int) (store : Store V E) (e : E)
    (h : t.callable args kwargs = .error e) :
    (enqueue t args kwargs sid k id now store).fst =
      { id := id, session_id := sid, key := k, status := .failed,
        value := none, error := some e, created_at := now,
        started_at := some now, finished_at := some now, ttl := t.ttl } := by
  unfold enqueue
  simp only [h]
  rfl

/-- The store produced by `enqueue`: the fresh record in front of the store
purged of the overwritten key. -/
theorem enqueue_snd (t : Task ι κ V E) (args : ι) (kwargs : κ)
    (sid k id : String) (now : Int) (store : Store V E) :
    (enqueue t args kwargs sid k id now store).snd =
      (enqueue t args kwargs sid k id now store).fst :: removeEntry store sid k := by
  unfold enqueue
  cases t.callable args kwargs <;> rfl

/-! ### Claim theorems -/

/-- Claim C1: For every task `T` and argument tuple `A`, `ImmediateBackend.enqueue`
executes the callable synchronously before returning: the TaskResult it
returns is COMPLETED when `T(A)` returns normally and FAILED when it raises,
an immediately following `get` on the same (session, key) returns exactly
that record, and its status is never PENDING or RUNNING. -/
theorem immediate_enqueue_get_terminal (t : Task ι κ V E) (args : ι) (kwargs : κ)
    (sid k id : String) (now : Int) (store : Store V E) :
    (enqueue t args kwargs sid k id now store).fst.status =
      (match t.callable args kwargs with
       | .ok _ => TaskStatus.completed
       | .error _ => TaskStatus.failed) ∧
    (get sid k now (enqueue t args kwargs sid k id now store).snd).fst =
      some (enqueue t args kwargs sid k id now store).fst ∧
    (enqueue t args kwargs sid k id now store).fst.status ≠ TaskStatus.pending ∧
    (enqueue t args kwargs sid k id now store).fst.status ≠ TaskStatus.running := by
  cases hcall : t.callable args kwargs with
  | ok v =>
    rw [enqueue_snd, enqueue_fst_ok t args kwargs sid k id now store v hcall]
    refine ⟨rfl, ?_, by simp, by simp⟩
    simp [get, lookupEntry, List.find?_cons, TaskResult.is_expired]
    rw [if_neg (not_lt.mpr (Int.natCast_nonneg _))]
  | error e =>
    rw [enqueue_snd, enqueue_fst_error t args kwargs sid k id now store e hcall]
    refine ⟨rfl, ?_, by simp, by simp⟩
    simp [get, lookupEntry, List.find?_cons, TaskResult.is_expired]
    rw [if_neg (not_lt.mpr (Int.natCast_nonneg _))]

/-- Claim C2: Round-trip through the backend: when the task's callable returns
`v` on `x`, `enqueue(task, (x,), kw, sid, k)` followed by `pop(sid, k)`
yields `transform(v)` when a transform is set and `v` otherwise, and a
second `pop(sid, k)` on the same key yields absence. -/
theorem enqueue_pop_roundtrip (t : Task ι κ V E) (x : ι) (kw : κ)
    (sid k id : String) (now : Int) (store : Store V E) (v : V)
    (h : t.callable x kw = .ok v) :
    (pop sid k now (enqueue t x kw sid k id now store).snd).fst =
      some (match t.transform with
            | some f => f v
            | none => v) ∧
    (pop sid k now
        (pop sid k now (enqueue t x kw sid k id now store).snd).snd).fst = none := by
  have hexp : ¬((t.ttl : Int) < 0) := not_lt.mpr (Int.natCast_nonneg _)
  rw [enqueue_snd, enqueue_fst_ok t x kw sid k id now store v h]
  have h1 : pop sid k now
      ({ id := id, session_id := sid, key := k, status := TaskStatus.completed,
         value := some (t.applyTransform v), error := none, created_at := now,
         started_at := some now, finished_at := some now, ttl := t.ttl } ::
        removeEntry store sid k) =
      (some (t.applyTransform v),
       removeEntry
         ({ id := id, session_id := sid, key := k, status := TaskStatus.completed,
            value := some (t.applyTransform v), error := none, created_at := now,
            started_at := some now, finished_at := some now, ttl := t.ttl } ::
           removeEntry store sid k) sid k) := by
    simp [pop, lookupEntry, List.find?_cons, TaskResult.is_expired, if_neg hexp]
  rw [h1]
  constructor
  · rfl
  · simp [pop, lookupEntry_removeEntry]

/-- Witness for C2: the doubling task enqueued on 5 pops as 10, and a second
pop of the same key answers absence. -/
theorem enqueue_pop_roundtrip_witness :
    (pop "s" "k" 0 (enqueue doubleTask (PyVal.int 5) PyVal.none "s" "k" "id1" 0 []).snd).fst
      = some (PyVal.int 10) ∧
    (pop "s" "k" 0
        (pop "s" "k" 0 (enqueue doubleTask (PyVal.int 5) PyVal.none "s" "k" "id1" 0 []).snd).snd).fst
      = none := by
  have h := enqueue_pop_roundtrip doubleTask (PyVal.int 5) PyVal.none "s" "k" "id1" 0 []
    (PyVal.int 10) rfl
  simpa [doubleTask] using h

/-- Claim C3: For every session and key holding a FAILED (live) entry, `pop`
answers absence and leaves the store unchanged; `pop_errors` answers
exactly the keys of the session's FAILED entries, each paired with the
stored exception, and removes exactly those entries; `pop` never surfaces a
FAILED entry's error as a value, absence being its only answer there. -/
theorem pop_errors_exact (sid : String) (now : Int) (store : Store V E) :
    (∀ k r, lookupEntry store sid k = some r → r.status = TaskStatus.failed →
        r.is_expired now = false → pop sid k now store = (none, store)) ∧
    (∀ k e, (k, e) ∈ (pop_errors sid now store).fst ↔
        ∃ r ∈ store, r.session_id = sid ∧ r.key = k ∧
          r.status = TaskStatus.failed ∧ r.error = some e ∧
          r.is_expired now = false) ∧
    (∀ r, r ∈ (pop_errors sid now store).snd ↔
        r ∈ store ∧ ¬(r.session_id = sid ∧ r.status = TaskStatus.failed ∧
          r.is_expired now = false)) := by
  refine ⟨?_, ?_, ?_⟩
  · intro k r hlk hst hexp
    unfold pop
    rw [hlk]
    simp [hexp, hst]
  · intro k e
    unfold pop_errors
    simp only [List.mem_filterMap, List.mem_filter, popErrPred, Bool.and_eq_true,
      beq_iff_eq, Bool.not_eq_true', Option.map_eq_some', Prod.mk.injEq]
    constructor
    · rintro ⟨r, ⟨hr, ⟨⟨hsid, hst⟩, hexp⟩⟩, e', he', hk, he⟩
      exact ⟨r, hr, hsid, hk, hst, he ▸ he', hexp⟩
    · rintro ⟨r, hr, hsid, hk, hst, he, hexp⟩
      exact ⟨r, ⟨hr, ⟨hsid, hst⟩, hexp⟩, e, he, hk, rfl⟩
  · intro r
    unfold pop_errors
    rw [List.mem_filter]
    constructor
    · rintro ⟨hr, hpred⟩
      refine ⟨hr, ?_⟩
      rintro ⟨hsid, hst, hexp⟩
      rw [Bool.not_eq_true'] at hpred
      unfold popErrPred at hpred
      simp [hsid, hst, hexp] at hpred
    · rintro ⟨hr, hneg⟩
      refine ⟨hr, ?_⟩
      rw [Bool.not_eq_true']
      unfold popErrPred
      by_cases hsid : r.session_id = sid
      · by_cases hst : r.status = TaskStatus.failed
        · by_cases hexp : r.is_expired now = true
          · simp [hexp]
          · exact absurd ⟨hsid, hst, by simpa using hexp⟩ hneg
        · simp [hst]
      · simp [hsid]

/-- Witness for C3: after enqueuing the failing task, `pop` on its key
answers absence leaving the store as is, and its key–error pair is in the
`pop_errors` answer. -/
theorem pop_errors_exact_witness :
    pop "s1" "fail1" 0 (enqueue failTask PyVal.none PyVal.none "s1" "fail1" "i1" 0 []).snd
      = (none, (enqueue failTask PyVal.none PyVal.none "s1" "fail1" "i1" 0 []).snd) ∧
    ("fail1", (⟨"ValueError", "Intentional failure"⟩ : PyErr)) ∈
      (pop_errors "s1" 0
        (enqueue failTask PyVal.none PyVal.none "s1" "fail1" "i1" 0 []).snd).fst := by
  have h := pop_errors_exact "s1" 0
    (enqueue failTask PyVal.none PyVal.none "s1" "fail1" "i1" 0 []).snd
  constructor
  · exact h.1 "fail1"
      { id := "i1", session_id := "s1", key := "fail1", status := TaskStatus.failed,
        value := none, error := some ⟨"ValueError", "Intentional failure"⟩,
        created_at := 0, started_at := some 0, finished_at := some 0, ttl := 300 }
      (by decide) (by decide) (by decide)
  · exact (h.2.1 "fail1" ⟨"ValueError", "Intentional failure"⟩).mpr
      ⟨{ id := "i1", session_id := "s1", key := "fail1", status := TaskStatus.failed,
         value := none, error := some ⟨"ValueError", "Intentional failure"⟩,
         created_at := 0, started_at := some 0, finished_at := some 0, ttl := 300 },
       by decide, by decide, by decide, by decide, by decide, by decide⟩

/-- Claim C4: The TaskResult state machine: a freshly created record is PENDING;
`set_running` moves PENDING to RUNNING recording `started_at`; `set_completed`
moves RUNNING to COMPLETED storing the value and recording `finished_at`;
`set_failed` moves RUNNING or PENDING to FAILED storing the error and
recording `finished_at`; `set_cancelled` moves PENDING or RUNNING to
CANCELLED recording `finished_at`; COMPLETED, FAILED and CANCELLED are
terminal — no transition changes a finished record; and `is_finished` holds
exactly when the status is one of those three. -/
theorem task_result_state_machine (id sid k : String) (ttl : Nat)
    (r : TaskResult V E) (v : V) (e : E) (now : Int) :
    ({ id := id, session_id := sid, key := k, ttl := ttl } : TaskResult V E).status
        = TaskStatus.pending ∧
    (r.status = TaskStatus.pending →
      (r.set_running now).status = TaskStatus.running ∧
      (r.set_running now).started_at = some now) ∧
    (r.status = TaskStatus.running →
      (r.set_completed v now).status = TaskStatus.completed ∧
      (r.set_completed v now).value = some v ∧
      (r.set_completed v now).finished_at = some now) ∧
    (r.status = TaskStatus.running ∨ r.status = TaskStatus.pending →
      (r.set_failed e now).status = TaskStatus.failed ∧
      (r.set_failed e now).error = some e ∧
      (r.set_failed e now).finished_at = some now) ∧
    (r.status = TaskStatus.pending ∨ r.status = TaskStatus.running →
      (r.set_cancelled now).status = TaskStatus.cancelled ∧
      (r.set_cancelled now).finished_at = some now) ∧
    (r.is_finished = true →
      r.set_running now = r ∧ r.set_completed v now = r ∧
      r.set_failed e now = r ∧ r.set_cancelled now = r) ∧
    (r.is_finished = true ↔
      (r.status = TaskStatus.completed ∨ r.status = TaskStatus.failed ∨
       r.status = TaskStatus.cancelled)) := by
  refine ⟨rfl, ?_, ?_, ?_, ?_, ?_, ?_⟩
  · intro h; simp [TaskResult.set_running, h]
  · intro h; simp [TaskResult.set_completed, h]
  · intro h; simp [TaskResult.set_failed, h]
  · intro h; simp [TaskResult.set_cancelled, h]
  · intro h
    have h1 : r.status ≠ TaskStatus.pending := by
      intro hc
      rw [TaskResult.is_finished, hc] at h
      simp [TaskStatus.isTerminal] at h
    have h2 : r.status ≠ TaskStatus.running := by
      intro hc
      rw [TaskResult.is_finished, hc] at h
      simp [TaskStatus.isTerminal] at h
    refine ⟨?_, ?_, ?_, ?_⟩ <;>
      simp [TaskResult.set_running, TaskResult.set_completed,
        TaskResult.set_failed, TaskResult.set_cancelled, h1, h2]
  · rw [TaskResult.is_finished]
    cases hs : r.status <;> simp [TaskStatus.isTerminal]

/-- Witness for C4: a fresh pending record starts, a running record
completes, and a finished record is unmoved by a cancel attempt. -/
theorem task_result_state_machine_witness :
    (({ id := "i", session_id := "s", key := "k" } : TaskResult PyVal PyErr).set_running 1).status
        = TaskStatus.running ∧
    (({ id := "i", session_id := "s", key := "k",
        status := TaskStatus.running } : TaskResult PyVal PyErr).set_completed (PyVal.int 3) 2).status
        = TaskStatus.completed ∧
    ({ id := "i", session_id := "s", key := "k",
       status := TaskStatus.failed } : TaskResult PyVal PyErr).set_cancelled 3
        = { id := "i", session_id := "s", key := "k", status := TaskStatus.failed } := by
  refine ⟨?_, ?_, ?_⟩
  · exact ((task_result_state_machine "i" "s" "k" 300
      ({ id := "i", session_id := "s", key := "k" } : TaskResult PyVal PyErr)
      (PyVal.int 3) ⟨"ValueError", "boom"⟩ 1).2.1 rfl).1
  · exact ((task_result_state_machine "i" "s" "k" 300
      ({ id := "i", session_id := "s", key := "k",
         status := TaskStatus.running } : TaskResult PyVal PyErr)
      (PyVal.int 3) ⟨"ValueError", "boom"⟩ 2).2.2.1 rfl).1
  · exact ((task_result_state_machine "i" "s" "k" 300
      ({ id := "i", session_id := "s", key := "k",
         status := TaskStatus.failed } : TaskResult PyVal PyErr)
      (PyVal.int 3) ⟨"ValueError", "boom"⟩ 3).2.2.2.2.2.1 (by decide)).2.2.2

/-- The record enqueued carries the session it was enqueued under. -/
theorem enqueue_fst_session_id (t : Task ι κ V E) (a : ι) (kw : κ)
    (sid k id : String) (now : Int) (store : Store V E) :
    (enqueue t a kw sid k id now store).fst.session_id = sid := by
  cases hc : t.callable a kw with
  | ok v => rw [enqueue_fst_ok t a kw sid k id now store v hc]
  | error e => rw [enqueue_fst_error t a kw sid k id now store e hc]

/-- The record enqueued carries the key it was enqueued under. -/
theorem enqueue_fst_key (t : Task ι κ V E) (a : ι) (kw : κ)
    (sid k id : String) (now : Int) (store : Store V E) :
    (enqueue t a kw sid k id now store).fst.key = k := by
  cases hc : t.callable a kw with
  | ok v => rw [enqueue_fst_ok t a kw sid k id now store v hc]
  | error e => rw [enqueue_fst_error t a kw sid k id now store e hc]

/-- A cons cell of another session is invisible to a session's entries. -/
theorem sessionEntries_cons_ne (r : TaskResult V E) (store : Store V E)
    (sid : String) (h : r.session_id ≠ sid) :
    sessionEntries sid (r :: store) = sessionEntries sid store := by
  unfold sessionEntries
  rw [List.filter_cons, if_neg (by simp [h])]

/-- Removing a key of another session leaves a session's entries alone. -/
theorem sessionEntries_removeEntry_ne (store : Store V E) (sid k s2 : String)
    (h : sid ≠ s2) :
    sessionEntries s2 (removeEntry store sid k) = sessionEntries s2 store := by
  unfold sessionEntries removeEntry
  apply filter_filter_of_imp
  intro a ha
  have hs2 : a.session_id = s2 := by simpa using ha
  have h1 : (a.session_id == sid) = false := by
    rw [hs2]
    exact beq_false_of_ne (Ne.symm h)
  simp [h1]

/-- One enqueue under another session is invisible to a session's entries. -/
theorem sessionEntries_enqueue_ne (t : Task ι κ V E) (a : ι) (kw : κ)
    (s1 k id : String) (now : Int) (store : Store V E) (s2 : String)
    (h : s1 ≠ s2) :
    sessionEntries s2 (enqueue t a kw s1 k id now store).snd
      = sessionEntries s2 store := by
  rw [enqueue_snd]
  rw [sessionEntries_cons_ne _ _ _ (by rw [enqueue_fst_session_id]; exact h)]
  exact sessionEntries_removeEntry_ne store s1 k s2 h

/-- A whole batch of enqueues under another session is invisible to a
session's entries. -/
theorem sessionEntries_enqueueMany_ne (jobs : List (Job ι κ V E))
    (s1 s2 : String) (h : s1 ≠ s2) (now : Int) (store : Store V E) :
    sessionEntries s2 (enqueueMany jobs s1 now store) = sessionEntries s2 store := by
  induction jobs generalizing store with
  | nil => rfl
  | cons j js ih =>
    exact (ih ((enqueue j.task j.args j.kwargs s1 j.key j.id now store).snd)).trans
      (sessionEntries_enqueue_ne j.task j.args j.kwargs s1 j.key j.id now store s2 h)

/-- Lookup sees only the key's session's entries. -/
theorem lookupEntry_congr_of_sessionEntries (store store' : Store V E)
    (sid k : String) (h : sessionEntries sid store' = sessionEntries sid store) :
    lookupEntry store' sid k = lookupEntry store sid k := by
  rw [← lookupEntry_sessionEntries store' sid k, h, lookupEntry_sessionEntries]

/-- The value `pop` answers depends only on what lookup finds. -/
theorem pop_fst_congr (store store' : Store V E) (sid k : String) (now : Int)
    (h : lookupEntry store' sid k = lookupEntry store sid k) :
    (pop sid k now store').fst = (pop sid k now store).fst := by
  unfold pop
  rw [h]
  cases lookupEntry store sid k with
  | none => rfl
  | some r =>
    by_cases hexp : r.is_expired now = true
    · simp [hexp]
    · rw [Bool.not_eq_true] at hexp
      simp only [hexp, Bool.false_eq_true, if_false]
      cases r.status <;> rfl

/-- Lemma: `popAllPred` only selects entries of its session. -/
theorem popAllPred_imp_session (sid : String) (now : Int) (r : TaskResult V E)
    (h : popAllPred sid now r = true) : (r.session_id == sid) = true := by
  unfold popAllPred at h
  rw [Bool.and_eq_true, Bool.and_eq_true] at h
  exact h.1.1

/-- The values `pop_all` answers depend only on the session's entries. -/
theorem pop_all_fst_congr (store store' : Store V E) (sid : String) (now : Int)
    (h : sessionEntries sid store' = sessionEntries sid store) :
    (pop_all sid now store').fst = (pop_all sid now store).fst := by
  unfold pop_all
  have hf : store'.filter (popAllPred sid now) = store.filter (popAllPred sid now) := by
    rw [← filter_filter_of_imp store' (popAllPred sid now) (fun r => r.session_id == sid)
        (popAllPred_imp_session sid now)]
    rw [← filter_filter_of_imp store (popAllPred sid now) (fun r => r.session_id == sid)
        (popAllPred_imp_session sid now)]
    unfold sessionEntries at h
    rw [h]
  simpa using congrArg (List.filterMap (fun r => r.value)) hf

/-- The boolean `has` answers depends only on the session's entries. -/
theorem has_congr (store store' : Store V E) (sid : String) (ko : Option String)
    (now : Int) (h : sessionEntries sid store' = sessionEntries sid store) :
    has sid ko now store' = has sid ko now store := by
  have hany : (store'.any fun r => popAllPred sid now r)
      = store.any fun r => popAllPred sid now r := by
    rw [← any_filter_of_imp store' (popAllPred sid now) (fun r => r.session_id == sid)
        (popAllPred_imp_session sid now)]
    rw [← any_filter_of_imp store (popAllPred sid now) (fun r => r.session_id == sid)
        (popAllPred_imp_session sid now)]
    unfold sessionEntries at h
    rw [h]
  cases ko with
  | some k =>
    unfold has
    simp only [lookupEntry_congr_of_sessionEntries store store' sid k h]
  | none =>
    unfold has
    simp only [hany]

/-- Claim C5: Session isolation: for distinct sessions `s1 ≠ s2`, a batch of
enqueues under `s1` leaves the entries of `s2` identical, so every `pop`,
`pop_all` and `has` query scoped to `s2` answers the same with or without
those enqueues; and `pop_all(s1)` leaves the entries of `s2` untouched. -/
theorem session_isolation (s1 s2 : String) (hne : s1 ≠ s2)
    (jobs : List (Job ι κ V E)) (k' : String) (ko : Option String)
    (now : Int) (store : Store V E) :
    sessionEntries s2 (enqueueMany jobs s1 now store) = sessionEntries s2 store ∧
    (pop s2 k' now (enqueueMany jobs s1 now store)).fst = (pop s2 k' now store).fst ∧
    (pop_all s2 now (enqueueMany jobs s1 now store)).fst = (pop_all s2 now store).fst ∧
    has s2 ko now (enqueueMany jobs s1 now store) = has s2 ko now store ∧
    sessionEntries s2 (pop_all s1 now store).snd = sessionEntries s2 store := by
  have hse := sessionEntries_enqueueMany_ne jobs s1 s2 hne now store
  refine ⟨hse,
    pop_fst_congr store _ s2 k' now (lookupEntry_congr_of_sessionEntries store _ s2 k' hse),
    pop_all_fst_congr store _ s2 now hse,
    has_congr store _ s2 ko now hse, ?_⟩
  unfold pop_all sessionEntries
  apply filter_filter_of_imp
  intro a ha
  have hs2 : a.session_id = s2 := by simpa using ha
  rw [Bool.not_eq_true']
  unfold popAllPred
  have h1 : (a.session_id == s1) = false := by
    rw [hs2]
    exact beq_false_of_ne (Ne.symm hne)
  simp [h1]

/-- Witness for C5: with an entry under session "s2", an enqueue under "s1"
does not change what `pop` scoped to "s2" answers. -/
theorem session_isolation_witness :
    (pop "s2" "c" 0 (enqueueMany [⟨doubleTask, PyVal.int 1, PyVal.none, "a", "i1"⟩] "s1" 0
        (enqueue doubleTask (PyVal.int 2) PyVal.none "s2" "c" "i0" 0 []).snd)).fst
      = (pop "s2" "c" 0 (enqueue doubleTask (PyVal.int 2) PyVal.none "s2" "c" "i0" 0 []).snd).fst ∧
    "s1" ≠ "s2" := by
  refine ⟨(session_isolation "s1" "s2" (by decide)
    [⟨doubleTask, PyVal.int 1, PyVal.none, "a", "i1"⟩] "c" (some "c") 0
    (enqueue doubleTask (PyVal.int 2) PyVal.none "s2" "c" "i0" 0 []).snd).2.1, by decide⟩

/-- Claim C6: TTL expiry is lazy and status-independent: `is_expired` holds
exactly when `now − created_at > ttl`, evaluated at access time; an entry
with `ttl = 0` whose `created_at` lies strictly in the past is absent from
`get` on the next access regardless of its status, and `get` evicts the
expired entry from the store as a side effect of that check. -/
theorem ttl_lazy_expiry (store : Store V E) (sid k : String) (now : Int)
    (r : TaskResult V E) (hmem : lookupEntry store sid k = some r)
    (httl : r.ttl = 0) (hpast : r.created_at < now) :
    (∀ (r' : TaskResult V E) (now' : Int),
        r'.is_expired now' = true ↔ now' - r'.created_at > (r'.ttl : Int)) ∧
    r.is_expired now = true ∧
    (get sid k now store).fst = none ∧
    lookupEntry (get sid k now store).snd sid k = none := by
  have hexp : r.is_expired now = true := by
    unfold TaskResult.is_expired
    rw [httl]
    simp
    omega
  refine ⟨fun r' now' => by unfold TaskResult.is_expired; simp, hexp, ?_, ?_⟩
  · unfold get
    rw [hmem]
    simp [hexp]
  · unfold get
    rw [hmem]
    simp [hexp, lookupEntry_removeEntry]

/-- Witness for C6: a COMPLETED entry with `ttl = 0` created at time 0 is
absent from `get` at time 1, and the store no longer holds its key. -/
theorem ttl_lazy_expiry_witness :
    (get "s1" "expired" 1
      ([{ id := "i", session_id := "s1", key := "expired",
          status := TaskStatus.completed, value := some (PyVal.int 1),
          created_at := 0, ttl := 0 }] : Store PyVal PyErr)).fst = none ∧
    lookupEntry
      (get "s1" "expired" 1
        ([{ id := "i", session_id := "s1", key := "expired",
            status := TaskStatus.completed, value := some (PyVal.int 1),
            created_at := 0, ttl := 0 }] : Store PyVal PyErr)).snd
      "s1" "expired" = none := by
  have h := ttl_lazy_expiry
    ([{ id := "i", session_id := "s1", key := "expired",
        status := TaskStatus.completed, value := some (PyVal.int 1),
        created_at := 0, ttl := 0 }] : Store PyVal PyErr)
    "s1" "expired" 1
    { id := "i", session_id := "s1", key := "expired",
      status := TaskStatus.completed, value := some (PyVal.int 1),
      created_at := 0, ttl := 0 }
    (by decide) (by decide) (by decide)
  exact ⟨h.2.2.1, h.2.2.2⟩

/-- Claim C7: `wait_any` returns as soon as one of the given keys is COMPLETED,
as the pair (key, value): with key `k1` holding a live COMPLETED entry of
value `v` and `k2` never enqueued, `wait_any` over `[k1, k2]` answers
`(k1, v)` even though `k2` never completes; and it fails with a timeout only
when no given key has completed — any live COMPLETED key among those waited
on rules the timeout outcome out. -/
theorem wait_any_first_completed (store : Store V E) (sid k1 k2 : String)
    (timeout now : Int) (r : TaskResult V E) (v : V)
    (h1 : lookupEntry store sid k1 = some r) (hc : r.status = TaskStatus.completed)
    (hv : r.value = some v) (hexp : r.is_expired now = false)
    (h2 : lookupEntry store sid k2 = none) :
    wait_any sid [k1, k2] timeout now store = .ok (k1, v) ∧
    (∀ (keys : List String) (k : String) (r' : TaskResult V E) (v' : V),
        k ∈ keys → lookupEntry store sid k = some r' →
        r'.status = TaskStatus.completed → r'.value = some v' →
        r'.is_expired now = false →
        wait_any sid keys timeout now store ≠ .timeout) := by
  constructor
  · have hget : (get sid k1 now store).fst = some r := by
      unfold get
      rw [h1]
      simp [hexp]
    unfold wait_any
    simp [List.findSome?_cons, hget, hc, hv]
  · intro keys k r' v' hk hlk hst hval hexp' hto
    unfold wait_any at hto
    cases hfs : (keys.findSome? (fun k => match (get sid k now store).fst with
      | some r =>
        if r.status = TaskStatus.completed then r.value.map (fun v => (k, v)) else none
      | none => none)) with
    | some kv =>
      rw [hfs] at hto
      simp at hto
    | none =>
      rw [List.findSome?_eq_none_iff] at hfs
      have hfk := hfs k hk
      simp [get, hlk, hexp', hst, hval] at hfk

/-- Witness for C7: only "first" enqueued (value 2); `wait_any` over
["first", "second"] answers ("first", 2). -/
theorem wait_any_first_completed_witness :
    wait_any "s" ["first", "second"] 1 0
      (enqueue doubleTask (PyVal.int 1) PyVal.none "s" "first" "i1" 0 []).snd
      = .ok ("first", PyVal.int 2) := by
  exact (wait_any_first_completed
    (enqueue doubleTask (PyVal.int 1) PyVal.none "s" "first" "i1" 0 []).snd
    "s" "first" "second" 1 0
    { id := "i1", session_id := "s", key := "first", status := TaskStatus.completed,
      value := some (PyVal.int 2), error := none, created_at := 0,
      started_at := some 0, finished_at := some 0, ttl := 300 }
    (PyVal.int 2) (by decide) (by decide) (by decide) (by decide) (by decide)).1

/-- Claim C8: The facades are pure delegation: `BackgroundTasks.add` has exactly
the effect of the backend's `enqueue` under the bound session with the
returned handle discarded, and every `PendingResults` method answers
exactly what the corresponding backend operation answers with the bound
`session_id` pre-filled. -/
theorem facades_delegate (bt : BackgroundTasks) (p : PendingResults)
    (t : Task ι κ V E) (a : ι) (kw : κ) (k id : String) (keys : List String)
    (ko : Option String) (timeout now : Int) (store : Store V E) :
    bt.add t a kw k id now store = (enqueue t a kw bt.session_id k id now store).snd ∧
    p.pop k now store = FastHooks.pop p.session_id k now store ∧
    p.pop_all now store = FastHooks.pop_all p.session_id now store ∧
    p.pop_errors now store = FastHooks.pop_errors p.session_id now store ∧
    p.has ko now store = FastHooks.has p.session_id ko now store ∧
    p.wait k timeout now store = FastHooks.wait p.session_id k timeout now store ∧
    p.wait_all keys timeout now store
      = FastHooks.wait_all p.session_id keys timeout now store ∧
    p.wait_any keys timeout now store
      = FastHooks.wait_any p.session_id keys timeout now store :=
  ⟨rfl, rfl, rfl, rfl, rfl, rfl, rfl, rfl⟩

/-- Claim C9: Absence at the Python pop interface is the value `None`, not an
exception: on a missing key `pop` answers `None` and changes nothing; on an
expired key it answers `None`; and a COMPLETED entry whose stored value is
the Python `None` pops to exactly the same answer as an absent key — the
two are indistinguishable through `pop`. -/
theorem pop_absence_is_none (sid k : String) (now : Int)
    (s1 s2 s3 : Store PyVal E) (r : TaskResult PyVal E) (r3 : TaskResult PyVal E)
    (habs : lookupEntry s1 sid k = none)
    (hlk : lookupEntry s2 sid k = some r) (hst : r.status = TaskStatus.completed)
    (hval : r.value = some PyVal.none) (hexp : r.is_expired now = false)
    (hlk3 : lookupEntry s3 sid k = some r3) (hexp3 : r3.is_expired now = true) :
    (popPy sid k now s1).fst = PyVal.none ∧
    (popPy sid k now s1).snd = s1 ∧
    (popPy sid k now s2).fst = PyVal.none ∧
    (popPy sid k now s3).fst = PyVal.none ∧
    (popPy sid k now s2).fst = (popPy sid k now s1).fst := by
  have hA1 : (popPy sid k now s1).fst = PyVal.none := by
    unfold popPy pop
    rw [habs]
    rfl
  have hA2 : (popPy sid k now s1).snd = s1 := by
    unfold popPy pop
    rw [habs]
  have hB : (popPy sid k now s2).fst = PyVal.none := by
    unfold popPy pop
    rw [hlk]
    simp [hexp, hst, hval]
  have hC : (popPy sid k now s3).fst = PyVal.none := by
    unfold popPy pop
    rw [hlk3]
    simp [hexp3]
  exact ⟨hA1, hA2, hB, hC, by rw [hA1, hB]⟩

/-- Witness for C9: the empty store, a store holding a COMPLETED `None`
value under the key, and a store holding an expired entry under the key all
pop to the Python value `None`. -/
theorem pop_absence_is_none_witness :
    (popPy "s" "k" 1 ([] : Store PyVal PyErr)).fst = PyVal.none ∧
    (popPy "s" "k" 1
      (enqueue noneTask PyVal.none PyVal.none "s" "k" "i1" 1 []).snd).fst = PyVal.none ∧
    (popPy "s" "k" 1
      ([{ id := "i2", session_id := "s", key := "k",
          status := TaskStatus.running, created_at := 0,
          ttl := 0 }] : Store PyVal PyErr)).fst = PyVal.none := by
  have h := pop_absence_is_none "s" "k" 1 ([] : Store PyVal PyErr)
    (enqueue noneTask PyVal.none PyVal.none "s" "k" "i1" 1 []).snd
    ([{ id := "i2", session_id := "s", key := "k",
        status := TaskStatus.running, created_at := 0, ttl := 0 }] : Store PyVal PyErr)
    { id := "i1", session_id := "s", key := "k", status := TaskStatus.completed,
      value := some PyVal.none, error := none, created_at := 1,
      started_at := some 1, finished_at := some 1, ttl := 300 }
    { id := "i2", session_id := "s", key := "k",
      status := TaskStatus.running, created_at := 0, ttl := 0 }
    (by decide) (by decide) (by decide) (by decide) (by decide) (by decide) (by decide)
  exact ⟨h.1, h.2.2.1, h.2.2.2.1⟩

/-- Claim C10: A HookApp constructed without an explicit task backend creates
the default InMemoryBackend lazily on the first read of `task_backend` and
answers that identical instance on every later read (even when a different
fresh instance is on offer); a HookApp constructed with an explicit backend
`b` answers exactly `b`. -/
theorem default_task_backend_lazy_singleton (b : BackendRef) (t1 t2 t3 : Nat) :
    (HookApp.task_backend ⟨none⟩ t1).fst = mkInMemoryBackend t1 ∧
    (HookApp.task_backend ⟨none⟩ t1).fst.kind = BackendKind.inMemory ∧
    (HookApp.task_backend (HookApp.task_backend ⟨none⟩ t1).snd t2).fst
      = (HookApp.task_backend ⟨none⟩ t1).fst ∧
    (HookApp.task_backend (HookApp.task_backend ⟨none⟩ t1).snd t2).snd
      = (HookApp.task_backend ⟨none⟩ t1).snd ∧
    (HookApp.task_backend ⟨some b⟩ t3).fst = b ∧
    (HookApp.task_backend ⟨some b⟩ t3).snd = ⟨some b⟩ :=
  ⟨rfl, rfl, rfl, rfl, rfl, rfl⟩

end FastHooks
